import Mathlib

/-!
Shallow embedding of the dual-tier image cache engine of the
unsplash-workers-api Cloudflare Worker (source file `src/index.js`).

The embedding covers one cache partition.  A partition owns three durable
store entries (`META_<key>`, `MAIN_<key>`, `BUFFER_<key>`), modelled by the
`Store` structure.  JavaScript arrays parsed from JSON are modelled as
`List Slot` where a slot is `Option ImageRecord` (`none` is JSON `null`);
reading an index past the end of such a list yields JavaScript `undefined`,
which is distinct from `null` — the three-valued `JsSlotVal` captures the
value of an index read so that the `!== null` tests of the source are
translated exactly.
-/

set_option autoImplicit false

namespace UnsplashWorkers

/-- The minimized projection of an upstream image stored in cache slots
(`optimizedImages` in `refillBufferCache`).  Only the identifier is relevant
to the cache engine; the remaining projected fields travel with it opaquely. -/
structure ImageRecord where
  id : String
deriving DecidableEq

/-- One slot of a tier array: `none` models JSON `null` (an empty slot). -/
abbrev Slot := Option ImageRecord

/-- The value obtained by indexing a JavaScript array: `undef` for an
out-of-bounds read, `null` for a stored null, or a record. -/
inductive JsSlotVal where
  | undef
  | null
  | img (r : ImageRecord)
deriving DecidableEq

/-- Reading `arr[i]` in JavaScript on a JSON-parsed array. -/
def readSlot (arr : List Slot) (i : Nat) : JsSlotVal :=
  match arr.get? i with
  | Option.none => JsSlotVal.undef
  | Option.some Option.none => JsSlotVal.null
  | Option.some (Option.some r) => JsSlotVal.img r

/-- Writing `arr[i] = v` in JavaScript followed by the JSON round trip through the
KV store: assigning past the current length extends the array, and the holes
created serialize to `null`. -/
def writeSlot (arr : List Slot) (i : Nat) (v : Slot) : List Slot :=
  if i < arr.length then arr.set i v
  else arr ++ List.replicate (i - arr.length) none ++ [v]

/-- Per-tier metadata (`mainCache` / `bufferCache` objects of the source). -/
structure TierMeta where
  count : Nat
  currentPointer : Nat
deriving DecidableEq

/-- The `metadata` record persisted under `META_<key>` (`getOrInitializeMetadata`). -/
structure Metadata where
  mainCache : TierMeta
  bufferCache : TierMeta
  isRefilling : Bool
  lastRefillTime : Nat
  cacheKey : String
deriving DecidableEq

/-- The three durable store entries of one partition: the `MAIN_<key>` array,
the `BUFFER_<key>` array and the `META_<key>` record.  `none` means the key
is absent from the KV store. -/
structure Store where
  mainArr : Option (List Slot)
  bufferArr : Option (List Slot)
  meta : Option Metadata
deriving DecidableEq

/-- Which tier an operation targets (`cacheType` parameter). -/
inductive CacheType where
  | main
  | buffer
deriving DecidableEq

/-- The tier-metadata object selected by `cacheType`. -/
def tierOf (m : Metadata) (ct : CacheType) : TierMeta :=
  match ct with
  | CacheType.main => m.mainCache
  | CacheType.buffer => m.bufferCache

/-- Replace the tier-metadata object selected by `cacheType`. -/
def setTier (m : Metadata) (ct : CacheType) (t : TierMeta) : Metadata :=
  match ct with
  | CacheType.main => { m with mainCache := t }
  | CacheType.buffer => { m with bufferCache := t }

/-- The stored slot array selected by `cacheType`. -/
def storeArr (s : Store) (ct : CacheType) : Option (List Slot) :=
  match ct with
  | CacheType.main => s.mainArr
  | CacheType.buffer => s.bufferArr

/-- Model of `env.NAZKVHUBSTORE.put` of the slot array selected by `cacheType`. -/
def putArr (s : Store) (ct : CacheType) (arr : List Slot) : Store :=
  match ct with
  | CacheType.main => { s with mainArr := some arr }
  | CacheType.buffer => { s with bufferArr := some arr }

/-- Model of `updateMetadata`: persist the full metadata record under `META_<key>`. -/
def updateMetadata (s : Store) (m : Metadata) : Store :=
  { s with meta := some m }

/-- The zeroed metadata record built by `getOrInitializeMetadata` when no
record exists for the key. -/
def freshMetadata (cacheKey : String) : Metadata :=
  { mainCache := { count := 0, currentPointer := 0 }
  , bufferCache := { count := 0, currentPointer := 0 }
  , isRefilling := false
  , lastRefillTime := 0
  , cacheKey := cacheKey }

/-- Model of `getOrInitializeMetadata`: return the stored record, or create a zeroed
one together with two all-null arrays of 30 slots and persist everything. -/
def getOrInitializeMetadata (cacheKey : String) (s : Store) : Metadata × Store :=
  match s.meta with
  | some m => (m, s)
  | none =>
    let m := freshMetadata cacheKey
    let s1 := { s with mainArr := some (List.replicate 30 none)
                     , bufferArr := some (List.replicate 30 none) }
    (m, updateMetadata s1 m)

/-- The `while (loopCount < 30)` scan of `getImageFromCache`, with the fuel
argument standing for `30 - loopCount`.  The pointer is advanced one step
modulo 30 before each probe; the scan stops on the first index whose value
is not `null` (an out-of-bounds `undefined` passes this test, exactly as in
the source), or after a full wrap back to the starting pointer, or when the
loop counter reaches 30.  Returns the final pointer and the found index. -/
def scanLoop (arr : List Slot) (startPtr : Nat) : Nat → Nat → Nat × Option Nat
  | ptr, fuel + 1 =>
    let ptr2 := (ptr + 1) % 30
    if readSlot arr ptr2 ≠ JsSlotVal.null then (ptr2, some ptr2)
    else if ptr2 = startPtr then (ptr2, none)
    else scanLoop arr startPtr ptr2 fuel
  | ptr, 0 => (ptr, none)

/-- Result of `getImageFromCache`: the returned record (`none` stands for
both the `null` and the `undefined` return value, which every caller treats
identically via truthiness), the `metadataChanged` flag, and the mutated
metadata object and store. -/
structure TakeResult where
  imageData : Option ImageRecord
  metadataChanged : Bool
  metadata : Metadata
  store : Store
deriving DecidableEq

/-- Model of `getImageFromCache`: take one record from the selected tier using the
circular pointer scan.  Mirrors the source paths: empty tier, missing array
(self-heal by recreating a 30-slot all-null array and zeroing the count),
full-wrap failure (zero the count), and the found path (clear the slot,
decrement the count, persist the rewritten array). -/
def getImageFromCache (metadata : Metadata) (ct : CacheType) (s : Store) : TakeResult :=
  let cache := tierOf metadata ct
  if cache.count = 0 then
    { imageData := none, metadataChanged := false, metadata := metadata, store := s }
  else
    match storeArr s ct with
    | none =>
      let s2 := putArr s ct (List.replicate 30 none)
      { imageData := none, metadataChanged := true
      , metadata := setTier metadata ct { cache with count := 0 }, store := s2 }
    | some cacheArray =>
      let scanned := scanLoop cacheArray cache.currentPointer cache.currentPointer 30
      match scanned.2 with
      | none =>
        { imageData := none, metadataChanged := true
        , metadata := setTier metadata ct { count := 0, currentPointer := scanned.1 }
        , store := s }
      | some foundIndex =>
        let found := readSlot cacheArray foundIndex
        let arr2 := writeSlot cacheArray foundIndex none
        let s2 := putArr s ct arr2
        { imageData := match found with | JsSlotVal.img r => some r | _ => none
        , metadataChanged := true
        , metadata := setTier metadata ct
            { count := cache.count - 1, currentPointer := scanned.1 }
        , store := s2 }

/-- Failure-injection points for `copyBufferToMain`: the KV read of the
buffer array, the KV write of the main array, or the final metadata write
can each raise a store error. -/
inductive CopyFailPoint where
  | bufferGet
  | mainPut
  | metaPut
deriving DecidableEq

/-- Result of `copyBufferToMain`: the in-memory metadata object, the store,
and whether the call threw. -/
structure CopyResult where
  metadata : Metadata
  store : Store
  error : Bool
deriving DecidableEq

/-- Model of `copyBufferToMain`: read the buffer array (throwing if it is missing),
write it verbatim as the new main array, then set `mainCache.count` to
`bufferCache.count`, reset `mainCache.currentPointer` to 0 and persist the
metadata.  A failing KV operation throws at the corresponding point without
performing its write. -/
def copyBufferToMain (metadata : Metadata) (s : Store) (failAt : Option CopyFailPoint) : CopyResult :=
  if failAt = some CopyFailPoint.bufferGet then
    { metadata := metadata, store := s, error := true }
  else
    match s.bufferArr with
    | none => { metadata := metadata, store := s, error := true }
    | some bufferArray =>
      if failAt = some CopyFailPoint.mainPut then
        { metadata := metadata, store := s, error := true }
      else
        let s1 := { s with mainArr := some bufferArray }
        let m1 := { metadata with
          mainCache := { count := metadata.bufferCache.count, currentPointer := 0 } }
        if failAt = some CopyFailPoint.metaPut then
          { metadata := m1, store := s1, error := true }
        else
          { metadata := m1, store := updateMetadata s1 m1, error := false }

/-- Outcome of the bulk Unsplash fetch inside `refillBufferCache`: a
transport failure, a non-success HTTP status, or a parsed JSON batch. -/
inductive UpstreamResult where
  | netError
  | badStatus (code : Nat)
  | ok (images : List ImageRecord)
deriving DecidableEq

/-- Error classes a refill can propagate. -/
inductive RefillError where
  | upstream
  | store
deriving DecidableEq

/-- Result of `refillBufferCache`: the in-memory metadata object, the store,
and the propagated error if the call threw. -/
structure RefillResult where
  metadata : Metadata
  store : Store
  error : Option RefillError
deriving DecidableEq

/-- The `catch` block of `refillBufferCache`: reset `isRefilling`, persist
the reset, and rethrow. -/
def refillCatch (m : Metadata) (s : Store) (e : RefillError) : RefillResult :=
  let m2 := { m with isRefilling := false }
  { metadata := m2, store := updateMetadata s m2, error := some e }

/-- Store-failure injection points for `refillBufferCache`'s non-empty
success path: the KV write of the buffer array (the `BUFFER_<key>` put),
or the final metadata write that follows it — by which time the buffer
array has already been replaced and the in-memory metadata already carries
the new count and pointer. -/
inductive RefillStoreFail where
  | bufferPut
  | metaPut
deriving DecidableEq

/-- Model of `refillBufferCache`: no-op when `isRefilling` is already set; otherwise
set and persist the flag, fetch a batch of 30 from upstream, and on success
replace the buffer array wholesale with the projected batch, set
`bufferCache.count` to the batch length (the source applies no cap), reset
the pointer, clear the flag, stamp `lastRefillTime` and persist.  An empty
batch only clears the flag.  Any failure after the flag was set goes through
`refillCatch`, which — as in the source — persists whatever the in-memory
metadata holds at that point.  `failAt` injects a store error into one of
the two KV writes of the non-empty path: the buffer-array put (before
anything was overwritten) or the final metadata put (after the buffer array
was replaced and the metadata object mutated). -/
def refillBufferCache (metadata : Metadata) (s : Store) (upstream : UpstreamResult)
    (failAt : Option RefillStoreFail) (now : Nat) : RefillResult :=
  if metadata.isRefilling then
    { metadata := metadata, store := s, error := none }
  else
    let m1 := { metadata with isRefilling := true }
    let s1 := updateMetadata s m1
    match upstream with
    | UpstreamResult.netError => refillCatch m1 s1 RefillError.upstream
    | UpstreamResult.badStatus _ => refillCatch m1 s1 RefillError.upstream
    | UpstreamResult.ok images =>
      if images.isEmpty then
        let m2 := { m1 with isRefilling := false }
        { metadata := m2, store := updateMetadata s1 m2, error := none }
      else if failAt = some RefillStoreFail.bufferPut then refillCatch m1 s1 RefillError.store
      else
        let optimizedImages : List Slot := images.map some
        let s2 := { s1 with bufferArr := some optimizedImages }
        let m2 := { m1 with
          bufferCache := { count := images.length, currentPointer := 0 }
        , isRefilling := false
        , lastRefillTime := now }
        if failAt = some RefillStoreFail.metaPut then refillCatch m2 s2 RefillError.store
        else { metadata := m2, store := updateMetadata s2 m2, error := none }

/-! ### Cache-key generation and parameter parsing -/

/-- JavaScript `value || fallback` on a nullable string: `null`, `undefined`
and the empty string are falsy. -/
def jsOrStr (v : Option String) (fallback : String) : String :=
  match v with
  | none => fallback
  | some str => if str = "" then fallback else str

/-- The three content-affecting fields read by `generateCacheKey`. -/
structure KeyInput where
  orientation : Option String
  collectionIds : Option String
  addPhotoOfTheDay : Bool
deriving DecidableEq

/-- Model of `generateCacheKey`: normalize the three relevant fields (defaults
`'default'`, `'none'`, `false`), visit them in sorted field order
(`addPhotoOfTheDay`, `collectionIds`, `orientation`), skip any field whose
value is `'none'`, `false` or `'default'`, render the rest as `field=value`
pairs, join with `_`, and fall back to the literal `"default"` when every
field was skipped. -/
def generateCacheKey (p : KeyInput) : String :=
  let orientationVal := jsOrStr p.orientation "default"
  let collectionVal := jsOrStr p.collectionIds "none"
  let keyParts :=
    (if p.addPhotoOfTheDay then ["addPhotoOfTheDay=true"] else [])
    ++ (if collectionVal = "none" ∨ collectionVal = "default" then []
        else ["collectionIds=" ++ collectionVal])
    ++ (if orientationVal = "none" ∨ orientationVal = "default" then []
        else ["orientation=" ++ orientationVal])
  if keyParts.isEmpty then "default" else String.intercalate "_" keyParts

/-- Model of `validateOrientation`: any value other than the three valid orientation
strings (including an absent parameter) becomes `'landscape'`. -/
def validateOrientation (orientation : Option String) : String :=
  match orientation with
  | some str =>
    if str = "landscape" ∨ str = "portrait" ∨ str = "squarish" then str else "landscape"
  | none => "landscape"

/-- Model of `sanitizeCollectionIds`: `null` stays `null`; otherwise strip every
character that is not a digit or a comma. -/
def sanitizeCollectionIds (collections : Option String) : Option String :=
  match collections with
  | none => none
  | some str => some (String.mk (str.data.filter (fun c => c.isDigit ∨ c = ',')))

/-- The raw query-string parameters consumed by `handleRandomRequest`
(`url.searchParams.get` returns `null` for an absent parameter). -/
structure RawQuery where
  orientation : Option String
  collections : Option String
  addPhotoOfTheDay : Option String
  dl : Option String
  nocache : Option String
deriving DecidableEq

/-- The parsed parameters relevant to the cache engine (a projection of the
`params` object built at the top of `handleRandomRequest`). -/
structure Params where
  orientation : String
  collectionIds : Option String
  addPhotoOfTheDay : Bool
  download : Bool
  noCache : Bool
deriving DecidableEq

/-- The parameter-parsing block at the top of `handleRandomRequest`. -/
def parseParams (q : RawQuery) : Params :=
  { orientation := validateOrientation q.orientation
  , collectionIds := sanitizeCollectionIds q.collections
  , addPhotoOfTheDay := q.addPhotoOfTheDay = some "true"
  , download := q.dl = some "true"
  , noCache := q.nocache = some "true" }

/-- The fields of `params` that `generateCacheKey` reads. -/
def keyInputOf (p : Params) : KeyInput :=
  { orientation := some p.orientation
  , collectionIds := p.collectionIds
  , addPhotoOfTheDay := p.addPhotoOfTheDay }

/-! ### The request orchestrator -/

/-- Which path produced the response image. -/
inductive ServeSource where
  | fromMain
  | fromBuffer
  | direct
deriving DecidableEq

/-- One unit of work handed to `ctx.waitUntil`, in scheduling order. -/
inductive BgOp where
  | track (id : String)
  | updateMeta
  | copyToMain
  | refillBuf
deriving DecidableEq

/-- Outcome of a request that produced a response: the serving path, the
image, the in-memory metadata, the store after the synchronous work, and the
scheduled background operations in order. -/
structure HandlerOutcome where
  source : ServeSource
  image : ImageRecord
  metadata : Metadata
  store : Store
  background : List BgOp
deriving DecidableEq

/-- Operation pattern 3 of `handleRandomRequest` (cold start / cache miss):
fetch a single image live; when both tiers are empty, schedule the
refill → promote → refill chain as background work. -/
def handlerPattern3 (params : Params) (metadata : Metadata) (s : Store)
    (upstreamSingle : Except Unit ImageRecord) : Except Unit HandlerOutcome :=
  match upstreamSingle with
  | Except.error e => Except.error e
  | Except.ok imageData =>
    let bg0 := if params.download then [BgOp.track imageData.id] else []
    let bg1 :=
      if metadata.mainCache.count = 0 ∧ metadata.bufferCache.count = 0 then
        bg0 ++ [BgOp.refillBuf, BgOp.copyToMain, BgOp.refillBuf]
      else bg0
    Except.ok { source := ServeSource.direct, image := imageData
              , metadata := metadata, store := s, background := bg1 }

/-- Operation pattern 2 of `handleRandomRequest` (main empty, buffer has
images): take directly from the buffer; on success every maintenance step
(download tracking, metadata persist, promotion, buffer refill) is deferred
to background work; on a desync miss fall through to pattern 3 with the
mutated metadata. -/
def handlerPattern2 (params : Params) (metadata : Metadata) (s : Store)
    (upstreamSingle : Except Unit ImageRecord) : Except Unit HandlerOutcome :=
  if metadata.mainCache.count = 0 ∧ metadata.bufferCache.count > 0 ∧ params.noCache = false then
    let cacheResult := getImageFromCache metadata CacheType.buffer s
    match cacheResult.imageData with
    | some imageData =>
      let bg :=
        (if params.download then [BgOp.track imageData.id] else [])
        ++ (if cacheResult.metadataChanged then [BgOp.updateMeta] else [])
        ++ [BgOp.copyToMain, BgOp.refillBuf]
      Except.ok { source := ServeSource.fromBuffer, image := imageData
                , metadata := cacheResult.metadata, store := cacheResult.store
                , background := bg }
    | none => handlerPattern3 params cacheResult.metadata cacheResult.store upstreamSingle
  else handlerPattern3 params metadata s upstreamSingle

/-- Model of `handleRandomRequest` from the cache-key derivation onward (the
orchestrator): load or initialize the partition metadata, then try pattern 1
(main tier populated), pattern 2 (buffer direct) and pattern 3 (live fetch)
in order, falling through on a desync miss with the mutated metadata, as the
source does. -/
def handleRandomRequest (params : Params) (s : Store)
    (upstreamSingle : Except Unit ImageRecord) : Except Unit HandlerOutcome :=
  let cacheKey := generateCacheKey (keyInputOf params)
  let loaded := getOrInitializeMetadata cacheKey s
  let metadata := loaded.1
  let s1 := loaded.2
  if metadata.mainCache.count > 0 ∧ params.noCache = false then
    let cacheResult := getImageFromCache metadata CacheType.main s1
    match cacheResult.imageData with
    | some imageData =>
      let bg0 := if params.download then [BgOp.track imageData.id] else []
      let s2 := if cacheResult.metadataChanged
                then updateMetadata cacheResult.store cacheResult.metadata
                else cacheResult.store
      let bg1 :=
        if cacheResult.metadata.mainCache.count = 0 ∧
           cacheResult.metadata.bufferCache.count > 0 then
          bg0 ++ [BgOp.copyToMain, BgOp.refillBuf]
        else bg0
      Except.ok { source := ServeSource.fromMain, image := imageData
                , metadata := cacheResult.metadata, store := s2, background := bg1 }
    | none => handlerPattern2 params cacheResult.metadata cacheResult.store upstreamSingle
  else handlerPattern2 params metadata s1 upstreamSingle

/-- The tier a `cacheType` does not target. -/
def otherTier (ct : CacheType) : CacheType :=
  match ct with
  | CacheType.main => CacheType.buffer
  | CacheType.buffer => CacheType.main

/-! ### Lemmas about the circular scan -/

theorem scanLoop_succ (arr : List Slot) (startPtr ptr fuel : Nat) :
    scanLoop arr startPtr ptr (fuel + 1) =
      if readSlot arr ((ptr + 1) % 30) ≠ JsSlotVal.null then
        ((ptr + 1) % 30, some ((ptr + 1) % 30))
      else if (ptr + 1) % 30 = startPtr then ((ptr + 1) % 30, none)
      else scanLoop arr startPtr ((ptr + 1) % 30) fuel := rfl

theorem scanLoop_fst_lt (arr : List Slot) (startPtr : Nat) :
    ∀ fuel ptr, ptr < 30 ∨ 0 < fuel → (scanLoop arr startPtr ptr fuel).1 < 30 := by
  intro fuel
  induction fuel with
  | zero =>
    intro ptr h
    rcases h with h | h
    · simpa [scanLoop] using h
    · exact absurd h (by omega)
  | succ n ih =>
    intro ptr h
    rw [scanLoop_succ]
    by_cases hfound : readSlot arr ((ptr + 1) % 30) ≠ JsSlotVal.null
    · rw [if_pos hfound]
      exact Nat.mod_lt _ (by omega)
    · rw [if_neg hfound]
      by_cases hwrap : (ptr + 1) % 30 = startPtr
      · rw [if_pos hwrap]
        exact Nat.mod_lt _ (by omega)
      · rw [if_neg hwrap]
        exact ih ((ptr + 1) % 30) (Or.inl (Nat.mod_lt _ (by omega)))

theorem scanLoop_none_of_allNull (arr : List Slot) (startPtr : Nat)
    (h : ∀ i, i < 30 → readSlot arr i = JsSlotVal.null) :
    ∀ fuel ptr, (scanLoop arr startPtr ptr fuel).2 = none := by
  intro fuel
  induction fuel with
  | zero => intro ptr; simp [scanLoop]
  | succ n ih =>
    intro ptr
    have hnull : readSlot arr ((ptr + 1) % 30) = JsSlotVal.null :=
      h ((ptr + 1) % 30) (Nat.mod_lt _ (by omega))
    rw [scanLoop_succ, if_neg (by simp [hnull])]
    by_cases hwrap : (ptr + 1) % 30 = startPtr
    · rw [if_pos hwrap]
    · rw [if_neg hwrap]
      exact ih ((ptr + 1) % 30)

theorem scanLoop_found (arr : List Slot) (startPtr : Nat) :
    ∀ fuel ptr idx, (scanLoop arr startPtr ptr fuel).2 = some idx →
      (scanLoop arr startPtr ptr fuel).1 = idx ∧ readSlot arr idx ≠ JsSlotVal.null := by
  intro fuel
  induction fuel with
  | zero => intro ptr idx h; simp [scanLoop] at h
  | succ n ih =>
    intro ptr idx h
    rw [scanLoop_succ] at h ⊢
    by_cases hfound : readSlot arr ((ptr + 1) % 30) ≠ JsSlotVal.null
    · rw [if_pos hfound] at h ⊢
      simp at h
      simpa [← h] using hfound
    · rw [if_neg hfound] at h ⊢
      by_cases hwrap : (ptr + 1) % 30 = startPtr
      · rw [if_pos hwrap] at h
        simp at h
      · rw [if_neg hwrap] at h ⊢
        exact ih ((ptr + 1) % 30) idx h

/-! ### Lemmas about `getImageFromCache` -/

theorem getImageFromCache_changed_of_some (m : Metadata) (ct : CacheType) (s : Store)
    (r : ImageRecord) (h : (getImageFromCache m ct s).imageData = some r) :
    (getImageFromCache m ct s).metadataChanged = true := by
  unfold getImageFromCache at h ⊢
  by_cases hc : (tierOf m ct).count = 0
  · simp [hc] at h
  · simp only [hc, if_false, if_neg hc] at h ⊢
    cases hsa : storeArr s ct with
    | none => simp [hsa] at h ⊢
    | some cacheArray =>
      simp only [hsa] at h ⊢
      cases hsc : (scanLoop cacheArray (tierOf m ct).currentPointer
          (tierOf m ct).currentPointer 30).2 with
      | none => simp [hsc] at h
      | some foundIndex => simp [hsc] at h ⊢

theorem getImageFromCache_count_decrement (m : Metadata) (ct : CacheType) (s : Store)
    (r : ImageRecord) (h : (getImageFromCache m ct s).imageData = some r) :
    (tierOf (getImageFromCache m ct s).metadata ct).count + 1 = (tierOf m ct).count := by
  unfold getImageFromCache at h ⊢
  by_cases hc : (tierOf m ct).count = 0
  · simp [hc] at h
  · simp only [hc, if_neg hc] at h ⊢
    cases hsa : storeArr s ct with
    | none => simp [hsa] at h
    | some cacheArray =>
      simp only [hsa] at h ⊢
      cases hsc : (scanLoop cacheArray (tierOf m ct).currentPointer
          (tierOf m ct).currentPointer 30).2 with
      | none => simp [hsc] at h
      | some foundIndex =>
        simp only [hsc] at h ⊢
        cases ct <;> simp [setTier, tierOf] at h hc ⊢ <;> omega

theorem getImageFromCache_other_tier (m : Metadata) (ct : CacheType) (s : Store) :
    (tierOf (getImageFromCache m ct s).metadata (otherTier ct) = tierOf m (otherTier ct)) ∧
    storeArr (getImageFromCache m ct s).store (otherTier ct) = storeArr s (otherTier ct) := by
  unfold getImageFromCache
  by_cases hc : (tierOf m ct).count = 0
  · simp [hc]
  · simp only [hc, if_neg hc]
    cases hsa : storeArr s ct with
    | none => cases ct <;> simp [hsa, otherTier, setTier, tierOf, putArr, storeArr]
    | some cacheArray =>
      simp only [hsa]
      cases hsc : (scanLoop cacheArray (tierOf m ct).currentPointer
          (tierOf m ct).currentPointer 30).2 with
      | none => cases ct <;> simp [hsc, otherTier, setTier, tierOf]
      | some foundIndex =>
        cases ct <;> simp [hsc, otherTier, setTier, tierOf, putArr, storeArr]

theorem tierOf_setTier_same (m : Metadata) (ct : CacheType) (t : TierMeta) :
    tierOf (setTier m ct t) ct = t := by
  cases ct <;> rfl

theorem storeArr_putArr_same (s : Store) (ct : CacheType) (arr : List Slot) :
    storeArr (putArr s ct arr) ct = some arr := by
  cases ct <;> rfl

/-! ### Concrete fixtures used by witnesses and counterexamples -/

/-- A one-record buffer array of full capacity. -/
def exArr : List Slot := some ⟨"img-1"⟩ :: List.replicate 29 (none : Slot)

/-- Metadata recording one buffered record. -/
def exMeta : Metadata :=
  { freshMetadata "default" with bufferCache := { count := 1, currentPointer := 0 } }

/-- Store holding `exArr` in the buffer tier. -/
def exStore : Store :=
  { mainArr := some (List.replicate 30 none), bufferArr := some exArr, meta := some exMeta }

/-- Metadata claiming five buffered records. -/
def exMeta5 : Metadata :=
  { freshMetadata "default" with bufferCache := { count := 5, currentPointer := 0 } }

/-- Store whose buffer array is a zero-length JSON array, as a refill that
received no usable records can leave behind, while the metadata still
claims five records. -/
def exStoreShort : Store :=
  { mainArr := some (List.replicate 30 none), bufferArr := some [], meta := some exMeta5 }

/-- Store with a missing buffer array. -/
def exStoreMissing : Store :=
  { mainArr := some (List.replicate 30 none), bufferArr := none, meta := some exMeta5 }

/-! ### C8 — take/return conservation -/

/-- C8: a `takeOne` call that returns a record decrements the targeted
tier's count by exactly one and leaves the other tier's count, pointer and
stored array untouched. -/
theorem takeOne_conservation (m : Metadata) (ct : CacheType) (s : Store) (r : ImageRecord)
    (h : (getImageFromCache m ct s).imageData = some r) :
    (tierOf (getImageFromCache m ct s).metadata ct).count + 1 = (tierOf m ct).count ∧
    tierOf (getImageFromCache m ct s).metadata (otherTier ct) = tierOf m (otherTier ct) ∧
    storeArr (getImageFromCache m ct s).store (otherTier ct) = storeArr s (otherTier ct) :=
  ⟨getImageFromCache_count_decrement m ct s r h,
   (getImageFromCache_other_tier m ct s).1,
   (getImageFromCache_other_tier m ct s).2⟩

/-- C8 witness: taking the single record of `exStore`'s buffer drops the
buffer count from 1 to 0 and leaves the main tier untouched. -/
theorem takeOne_conservation_witness :
    (getImageFromCache exMeta CacheType.buffer exStore).imageData = some ⟨"img-1"⟩ ∧
    ((tierOf (getImageFromCache exMeta CacheType.buffer exStore).metadata CacheType.buffer).count + 1
        = (tierOf exMeta CacheType.buffer).count ∧
      tierOf (getImageFromCache exMeta CacheType.buffer exStore).metadata (otherTier CacheType.buffer)
        = tierOf exMeta (otherTier CacheType.buffer) ∧
      storeArr (getImageFromCache exMeta CacheType.buffer exStore).store (otherTier CacheType.buffer)
        = storeArr exStore (otherTier CacheType.buffer)) :=
  ⟨by decide, takeOne_conservation exMeta CacheType.buffer exStore ⟨"img-1"⟩ (by decide)⟩

/-! ### C5 — self-healing on desynchronized counts -/

/-- C5 counterexample: with a recorded buffer count of 5 but a stored buffer
array that is a zero-length JSON array (so it contains no non-empty slot),
`takeOne` does return empty and report a change, but it leaves the count at
4 instead of resetting it to 0: the out-of-bounds read is `undefined`, which
passes the source's `!== null` test. -/
theorem takeOne_selfheal_cex :
    (tierOf exMeta5 CacheType.buffer).count = 5 ∧
    exStoreShort.bufferArr = some [] ∧
    (getImageFromCache exMeta5 CacheType.buffer exStoreShort).imageData = none ∧
    (getImageFromCache exMeta5 CacheType.buffer exStoreShort).metadataChanged = true ∧
    (tierOf (getImageFromCache exMeta5 CacheType.buffer exStoreShort).metadata CacheType.buffer).count = 4 ∧
    (4 : Nat) ≠ 0 := by
  refine ⟨rfl, rfl, rfl, rfl, rfl, by decide⟩

/-- C5 amended: for a tier whose recorded count is positive, `takeOne`
self-heals as claimed whenever the stored slot array is missing (recreated
all-empty, count reset to 0, change reported) or present with at least
CAPACITY slots none of which holds a record (count reset to 0, change
reported); arrays shorter than CAPACITY escape the claim because an
out-of-bounds read is `undefined`, which the scan mistakes for a record. -/
theorem takeOne_selfheal (m : Metadata) (ct : CacheType) (s : Store)
    (hc : 0 < (tierOf m ct).count) :
    (storeArr s ct = none →
      (getImageFromCache m ct s).imageData = none ∧
      (getImageFromCache m ct s).metadataChanged = true ∧
      (tierOf (getImageFromCache m ct s).metadata ct).count = 0 ∧
      storeArr (getImageFromCache m ct s).store ct = some (List.replicate 30 none)) ∧
    (∀ arr, storeArr s ct = some arr → 30 ≤ arr.length → (∀ x ∈ arr, x = none) →
      (getImageFromCache m ct s).imageData = none ∧
      (getImageFromCache m ct s).metadataChanged = true ∧
      (tierOf (getImageFromCache m ct s).metadata ct).count = 0) := by
  have hc0 : ¬ (tierOf m ct).count = 0 := by omega
  constructor
  · intro hmiss
    unfold getImageFromCache
    simp [hc0, hmiss, tierOf_setTier_same, storeArr_putArr_same]
  · intro arr hsome hlen hall
    have hnull : ∀ i, i < 30 → readSlot arr i = JsSlotVal.null := by
      intro i hi
      have hgl : i < arr.length := by omega
      cases hget : arr.get? i with
      | none =>
        rw [List.get?_eq_none] at hget
        omega
      | some x =>
        have hx : x = none := hall x (List.get?_mem hget)
        subst hx
        unfold readSlot
        rw [hget]
    have hscan := scanLoop_none_of_allNull arr (tierOf m ct).currentPointer hnull 30
      (tierOf m ct).currentPointer
    unfold getImageFromCache
    simp [hc0, hsome, hscan, tierOf_setTier_same]

/-- C5 witness: with a recorded count of 5 and a missing buffer array, the
amended theorem applies and `takeOne` resets the count to 0 after recreating
the array. -/
theorem takeOne_selfheal_witness :
    0 < (tierOf exMeta5 CacheType.buffer).count ∧
    storeArr exStoreMissing CacheType.buffer = none ∧
    ((getImageFromCache exMeta5 CacheType.buffer exStoreMissing).imageData = none ∧
      (getImageFromCache exMeta5 CacheType.buffer exStoreMissing).metadataChanged = true ∧
      (tierOf (getImageFromCache exMeta5 CacheType.buffer exStoreMissing).metadata CacheType.buffer).count = 0 ∧
      storeArr (getImageFromCache exMeta5 CacheType.buffer exStoreMissing).store CacheType.buffer
        = some (List.replicate 30 none)) :=
  ⟨by decide, rfl,
   (takeOne_selfheal exMeta5 CacheType.buffer exStoreMissing (by decide)).1 rfl⟩

/-! ### C4 — promotion totality -/

/-- C4: a successful `copyBufferToMain` writes the buffer array verbatim as
the main array, sets the main count to the buffer count observed at
promotion time, resets the main pointer to 0, persists the metadata, and
leaves the buffer tier (metadata and array) unchanged; on a failure before
the main-array write succeeds (failing buffer read, missing buffer array,
or failing main-array write) both the metadata and the store are left
unmodified. -/
theorem copyBufferToMain_spec (m : Metadata) (s : Store) :
    (∀ arr, s.bufferArr = some arr →
      (copyBufferToMain m s none).error = false ∧
      (copyBufferToMain m s none).store.mainArr = some arr ∧
      (copyBufferToMain m s none).metadata.mainCache.count = m.bufferCache.count ∧
      (copyBufferToMain m s none).metadata.mainCache.currentPointer = 0 ∧
      (copyBufferToMain m s none).metadata.bufferCache = m.bufferCache ∧
      (copyBufferToMain m s none).store.bufferArr = some arr ∧
      (copyBufferToMain m s none).store.meta = some (copyBufferToMain m s none).metadata) ∧
    (s.bufferArr = none →
      (copyBufferToMain m s none).error = true ∧
      (copyBufferToMain m s none).metadata = m ∧
      (copyBufferToMain m s none).store = s) ∧
    (∀ f, f = CopyFailPoint.bufferGet ∨ f = CopyFailPoint.mainPut →
      (copyBufferToMain m s (some f)).error = true ∧
      (copyBufferToMain m s (some f)).metadata = m ∧
      (copyBufferToMain m s (some f)).store = s) := by
  refine ⟨?_, ?_, ?_⟩
  · intro arr harr
    unfold copyBufferToMain
    simp [harr, updateMetadata]
  · intro harr
    unfold copyBufferToMain
    simp [harr]
  · intro f hf
    unfold copyBufferToMain
    rcases hf with rfl | rfl
    · simp
    · cases harr : s.bufferArr <;> simp [harr]

/-- C4 witness: promoting `exStore`'s one-record buffer succeeds with main
count 1, main pointer 0 and an untouched buffer tier. -/
theorem copyBufferToMain_spec_witness :
    exStore.bufferArr = some exArr ∧
    ((copyBufferToMain exMeta exStore none).error = false ∧
      (copyBufferToMain exMeta exStore none).store.mainArr = some exArr ∧
      (copyBufferToMain exMeta exStore none).metadata.mainCache.count = exMeta.bufferCache.count ∧
      (copyBufferToMain exMeta exStore none).metadata.mainCache.currentPointer = 0 ∧
      (copyBufferToMain exMeta exStore none).metadata.bufferCache = exMeta.bufferCache ∧
      (copyBufferToMain exMeta exStore none).store.bufferArr = some exArr ∧
      (copyBufferToMain exMeta exStore none).store.meta
        = some (copyBufferToMain exMeta exStore none).metadata) :=
  ⟨rfl, (copyBufferToMain_spec exMeta exStore).1 exArr rfl⟩

/-! ### C3 — successful refill with a non-empty batch -/

/-- C3 counterexample: when upstream returns 31 records, the source sets
`bufferCache.count` to 31, not to the claimed value capped at CAPACITY
(`min 31 30 = 30`): the code applies no cap to the batch length. -/
theorem refill_count_not_capped_cex :
    (refillBufferCache (freshMetadata "default") exStore
        (UpstreamResult.ok (List.replicate 31 ⟨"x"⟩)) none 7).error = none ∧
    (refillBufferCache (freshMetadata "default") exStore
        (UpstreamResult.ok (List.replicate 31 ⟨"x"⟩)) none 7).metadata.bufferCache.count = 31 ∧
    min 31 30 = 30 ∧ (31 : Nat) ≠ 30 := by
  refine ⟨rfl, rfl, rfl, by decide⟩

/-- C3 amended: a refill that proceeds (flag clear) and succeeds with a
non-empty batch sets `bufferCache.count` to the exact number of records
returned — the source applies no CAPACITY cap, relying on upstream honoring
the requested batch size of 30 — resets `bufferCache.pointer` to 0, clears
`isRefilling`, sets `lastRefillTime` to the current time, writes the batch
wholesale as the buffer array and persists the metadata. -/
theorem refill_success_nonempty (m : Metadata) (s : Store) (imgs : List ImageRecord) (now : Nat)
    (hflag : m.isRefilling = false) (hne : imgs ≠ []) :
    (refillBufferCache m s (UpstreamResult.ok imgs) none now).error = none ∧
    (refillBufferCache m s (UpstreamResult.ok imgs) none now).metadata.bufferCache.count
      = imgs.length ∧
    (refillBufferCache m s (UpstreamResult.ok imgs) none now).metadata.bufferCache.currentPointer
      = 0 ∧
    (refillBufferCache m s (UpstreamResult.ok imgs) none now).metadata.isRefilling = false ∧
    (refillBufferCache m s (UpstreamResult.ok imgs) none now).metadata.lastRefillTime = now ∧
    (refillBufferCache m s (UpstreamResult.ok imgs) none now).store.bufferArr
      = some (imgs.map some) ∧
    (refillBufferCache m s (UpstreamResult.ok imgs) none now).store.meta
      = some (refillBufferCache m s (UpstreamResult.ok imgs) none now).metadata := by
  have hempty : imgs.isEmpty = false := by
    cases imgs with
    | nil => exact absurd rfl hne
    | cons a as => rfl
  unfold refillBufferCache
  simp [hflag, hempty, updateMetadata]

/-- C3 witness: refilling the fresh partition with a two-record batch leaves
count 2, pointer 0, a persisted metadata record and the projected batch as
the buffer array. -/
theorem refill_success_nonempty_witness :
    (freshMetadata "k2").isRefilling = false ∧
    ([(⟨"a"⟩ : ImageRecord), ⟨"b"⟩] ≠ []) ∧
    ((refillBufferCache (freshMetadata "k2") exStore
        (UpstreamResult.ok [⟨"a"⟩, ⟨"b"⟩]) none 9).error = none ∧
      (refillBufferCache (freshMetadata "k2") exStore
        (UpstreamResult.ok [⟨"a"⟩, ⟨"b"⟩]) none 9).metadata.bufferCache.count = 2 ∧
      (refillBufferCache (freshMetadata "k2") exStore
        (UpstreamResult.ok [⟨"a"⟩, ⟨"b"⟩]) none 9).metadata.bufferCache.currentPointer = 0 ∧
      (refillBufferCache (freshMetadata "k2") exStore
        (UpstreamResult.ok [⟨"a"⟩, ⟨"b"⟩]) none 9).metadata.isRefilling = false ∧
      (refillBufferCache (freshMetadata "k2") exStore
        (UpstreamResult.ok [⟨"a"⟩, ⟨"b"⟩]) none 9).metadata.lastRefillTime = 9 ∧
      (refillBufferCache (freshMetadata "k2") exStore
        (UpstreamResult.ok [⟨"a"⟩, ⟨"b"⟩]) none 9).store.bufferArr
        = some ([(⟨"a"⟩ : ImageRecord), ⟨"b"⟩].map some) ∧
      (refillBufferCache (freshMetadata "k2") exStore
        (UpstreamResult.ok [⟨"a"⟩, ⟨"b"⟩]) none 9).store.meta
        = some (refillBufferCache (freshMetadata "k2") exStore
            (UpstreamResult.ok [⟨"a"⟩, ⟨"b"⟩]) none 9).metadata) := by
  have hlen : ([(⟨"a"⟩ : ImageRecord), ⟨"b"⟩]).length = 2 := rfl
  refine ⟨rfl, by decide, ?_⟩
  have h := refill_success_nonempty (freshMetadata "k2") exStore [⟨"a"⟩, ⟨"b"⟩] 9 rfl (by decide)
  rw [hlen] at h
  exact h

/-! ### C6 — refill failure resets the flag and leaves the buffer intact -/

/-- C6 counterexample: a store error on the final metadata write — after
the `isRefilling` flag was set and the buffer array was already replaced —
propagates an error and resets and persists the flag, but the stored buffer
array now holds the new two-record batch instead of the prior one-record
array, and the persisted count is the new batch length 2, not the prior 1:
the buffer tier is not left in its prior state. -/
theorem refill_failure_metaput_cex :
    exMeta.isRefilling = false ∧
    exStore.bufferArr = some exArr ∧
    exMeta.bufferCache.count = 1 ∧
    (refillBufferCache exMeta exStore (UpstreamResult.ok [⟨"n1"⟩, ⟨"n2"⟩])
        (some RefillStoreFail.metaPut) 21).error.isSome = true ∧
    (refillBufferCache exMeta exStore (UpstreamResult.ok [⟨"n1"⟩, ⟨"n2"⟩])
        (some RefillStoreFail.metaPut) 21).store.bufferArr
      = some [some ⟨"n1"⟩, some ⟨"n2"⟩] ∧
    some [some (⟨"n1"⟩ : ImageRecord), some ⟨"n2"⟩] ≠ some exArr ∧
    (refillBufferCache exMeta exStore (UpstreamResult.ok [⟨"n1"⟩, ⟨"n2"⟩])
        (some RefillStoreFail.metaPut) 21).metadata.bufferCache.count = 2 ∧
    (refillBufferCache exMeta exStore (UpstreamResult.ok [⟨"n1"⟩, ⟨"n2"⟩])
        (some RefillStoreFail.metaPut) 21).store.meta
      = some (refillBufferCache exMeta exStore (UpstreamResult.ok [⟨"n1"⟩, ⟨"n2"⟩])
          (some RefillStoreFail.metaPut) 21).metadata :=
  ⟨rfl, rfl, rfl, rfl, rfl, by decide, rfl, rfl⟩

/-- C6 amended: every refill that fails after setting the `isRefilling`
flag resets the flag, persists, and propagates the error.  When the failure
is a transport error, a non-success upstream status, or a store error on
the buffer-array write, the buffer tier's stored array, count and pointer
are left exactly as before the call.  When the store error strikes the
final metadata write instead — after the buffer array was already replaced
— the stored buffer array holds the new batch and the persisted metadata
carries the new count (the batch length) and pointer 0, not the prior
values. -/
theorem refill_failure_resets (m : Metadata) (s : Store) (u : UpstreamResult)
    (f : Option RefillStoreFail) (now : Nat)
    (hflag : m.isRefilling = false) :
    ((u = UpstreamResult.netError ∨ (∃ c, u = UpstreamResult.badStatus c) ∨
        (∃ imgs, u = UpstreamResult.ok imgs ∧ imgs ≠ [] ∧ f = some RefillStoreFail.bufferPut)) →
      (refillBufferCache m s u f now).error.isSome = true ∧
      (refillBufferCache m s u f now).metadata = m ∧
      (refillBufferCache m s u f now).store.meta = some m ∧
      (refillBufferCache m s u f now).store.bufferArr = s.bufferArr) ∧
    (∀ imgs, u = UpstreamResult.ok imgs → imgs ≠ [] → f = some RefillStoreFail.metaPut →
      (refillBufferCache m s u f now).error.isSome = true ∧
      (refillBufferCache m s u f now).metadata.isRefilling = false ∧
      (refillBufferCache m s u f now).store.meta = some (refillBufferCache m s u f now).metadata ∧
      (refillBufferCache m s u f now).store.bufferArr = some (imgs.map some) ∧
      (refillBufferCache m s u f now).metadata.bufferCache.count = imgs.length ∧
      (refillBufferCache m s u f now).metadata.bufferCache.currentPointer = 0) := by
  have hm : { m with isRefilling := false } = m := by
    cases m
    simp_all
  constructor
  · intro hfail
    rcases hfail with rfl | ⟨c, rfl⟩ | ⟨imgs, rfl, hne, rfl⟩
    · unfold refillBufferCache refillCatch
      simp [hflag, hm, updateMetadata]
    · unfold refillBufferCache refillCatch
      simp [hflag, hm, updateMetadata]
    · have hempty : imgs.isEmpty = false := by
        cases imgs with
        | nil => exact absurd rfl hne
        | cons a as => rfl
      unfold refillBufferCache refillCatch
      simp [hflag, hempty, hm, updateMetadata]
  · intro imgs hu hne hf
    subst hu
    subst hf
    have hempty : imgs.isEmpty = false := by
      cases imgs with
      | nil => exact absurd rfl hne
      | cons a as => rfl
    unfold refillBufferCache refillCatch
    simp [hflag, hempty, updateMetadata]

/-- C6 witness: both amended clauses at concrete inputs — a store error on
the buffer-array put keeps the prior buffer array and metadata, while a
store error on the final metadata put of the same batch leaves the new
array and count behind the propagated error. -/
theorem refill_failure_resets_witness :
    exMeta.isRefilling = false ∧
    ((refillBufferCache exMeta exStore (UpstreamResult.ok [⟨"c"⟩])
        (some RefillStoreFail.bufferPut) 3).error.isSome = true ∧
      (refillBufferCache exMeta exStore (UpstreamResult.ok [⟨"c"⟩])
        (some RefillStoreFail.bufferPut) 3).metadata = exMeta ∧
      (refillBufferCache exMeta exStore (UpstreamResult.ok [⟨"c"⟩])
        (some RefillStoreFail.bufferPut) 3).store.meta = some exMeta ∧
      (refillBufferCache exMeta exStore (UpstreamResult.ok [⟨"c"⟩])
        (some RefillStoreFail.bufferPut) 3).store.bufferArr = exStore.bufferArr) ∧
    ((refillBufferCache exMeta exStore (UpstreamResult.ok [⟨"c"⟩])
        (some RefillStoreFail.metaPut) 3).error.isSome = true ∧
      (refillBufferCache exMeta exStore (UpstreamResult.ok [⟨"c"⟩])
        (some RefillStoreFail.metaPut) 3).metadata.isRefilling = false ∧
      (refillBufferCache exMeta exStore (UpstreamResult.ok [⟨"c"⟩])
        (some RefillStoreFail.metaPut) 3).store.meta
        = some (refillBufferCache exMeta exStore (UpstreamResult.ok [⟨"c"⟩])
            (some RefillStoreFail.metaPut) 3).metadata ∧
      (refillBufferCache exMeta exStore (UpstreamResult.ok [⟨"c"⟩])
        (some RefillStoreFail.metaPut) 3).store.bufferArr
        = some ([(⟨"c"⟩ : ImageRecord)].map some) ∧
      (refillBufferCache exMeta exStore (UpstreamResult.ok [⟨"c"⟩])
        (some RefillStoreFail.metaPut) 3).metadata.bufferCache.count
        = [(⟨"c"⟩ : ImageRecord)].length ∧
      (refillBufferCache exMeta exStore (UpstreamResult.ok [⟨"c"⟩])
        (some RefillStoreFail.metaPut) 3).metadata.bufferCache.currentPointer = 0) :=
  ⟨rfl,
   (refill_failure_resets exMeta exStore (UpstreamResult.ok [⟨"c"⟩])
      (some RefillStoreFail.bufferPut) 3 rfl).1
     (Or.inr (Or.inr ⟨[⟨"c"⟩], rfl, by decide, rfl⟩)),
   (refill_failure_resets exMeta exStore (UpstreamResult.ok [⟨"c"⟩])
      (some RefillStoreFail.metaPut) 3 rfl).2
     [⟨"c"⟩] rfl (by decide) rfl⟩

/-! ### C7 — empty upstream batch -/

/-- C7 counterexample: with a prior buffer count of 5, a refill whose
upstream batch is empty raises no error and clears `isRefilling`, but it
leaves the buffer count at 5 — not at 0 as the claim states: the source
returns early without touching the buffer tier. -/
theorem refill_empty_batch_cex :
    exMeta5.bufferCache.count = 5 ∧
    (refillBufferCache exMeta5 exStore (UpstreamResult.ok []) none 7).error = none ∧
    (refillBufferCache exMeta5 exStore (UpstreamResult.ok []) none 7).metadata.isRefilling
      = false ∧
    (refillBufferCache exMeta5 exStore (UpstreamResult.ok []) none 7).metadata.bufferCache.count
      = 5 ∧
    (5 : Nat) ≠ 0 := by
  refine ⟨rfl, rfl, rfl, rfl, by decide⟩

/-- C7 amended: a refill that proceeds (flag clear) and receives an empty
batch from upstream raises no error, clears `isRefilling`, and leaves the
buffer tier unchanged — its count stays at its prior value (which is 0
exactly when the buffer was already empty), and the stored array is not
touched. -/
theorem refill_empty_batch (m : Metadata) (s : Store) (f : Option RefillStoreFail) (now : Nat)
    (hflag : m.isRefilling = false) :
    (refillBufferCache m s (UpstreamResult.ok []) f now).error = none ∧
    (refillBufferCache m s (UpstreamResult.ok []) f now).metadata.isRefilling = false ∧
    (refillBufferCache m s (UpstreamResult.ok []) f now).metadata.bufferCache = m.bufferCache ∧
    (refillBufferCache m s (UpstreamResult.ok []) f now).store.bufferArr = s.bufferArr := by
  unfold refillBufferCache
  simp [hflag, updateMetadata, List.isEmpty]

/-- C7 witness: the amended theorem applied to a buffer holding 5 records. -/
theorem refill_empty_batch_witness :
    exMeta5.isRefilling = false ∧
    ((refillBufferCache exMeta5 exStore (UpstreamResult.ok []) none 11).error = none ∧
      (refillBufferCache exMeta5 exStore (UpstreamResult.ok []) none 11).metadata.isRefilling
        = false ∧
      (refillBufferCache exMeta5 exStore (UpstreamResult.ok []) none 11).metadata.bufferCache
        = exMeta5.bufferCache ∧
      (refillBufferCache exMeta5 exStore (UpstreamResult.ok []) none 11).store.bufferArr
        = exStore.bufferArr) :=
  ⟨rfl, refill_empty_batch exMeta5 exStore none 11 rfl⟩

/-! ### C2 — tier capacity invariant -/

/-- The claimed per-tier bounds: `0 ≤ count ≤ 30` (the lower bound is
inherent to `Nat`) and `pointer ∈ [0, 30)`. -/
def tierOk (t : TierMeta) : Prop := t.count ≤ 30 ∧ t.currentPointer < 30

/-- Both tiers of a metadata record satisfy the claimed bounds. -/
def metaOk (m : Metadata) : Prop := tierOk m.mainCache ∧ tierOk m.bufferCache

/-- The number of records an upstream outcome delivers. -/
def upstreamCount (u : UpstreamResult) : Nat :=
  match u with
  | UpstreamResult.ok imgs => imgs.length
  | _ => 0

/-- C2 counterexample: starting from a freshly initialized (in-bounds)
partition, one completed refill whose upstream batch holds 31 records
leaves `bufferCache.count = 31 > 30`, violating the claimed invariant — the
source stores the raw batch length. -/
theorem tier_bounds_cex :
    metaOk (freshMetadata "default") ∧
    (refillBufferCache (freshMetadata "default") exStore
        (UpstreamResult.ok (List.replicate 31 ⟨"y"⟩)) none 13).error = none ∧
    (refillBufferCache (freshMetadata "default") exStore
        (UpstreamResult.ok (List.replicate 31 ⟨"y"⟩)) none 13).metadata.bufferCache.count
      = 31 ∧
    ¬ (31 : Nat) ≤ 30 := by
  refine ⟨⟨⟨by decide, by decide⟩, ⟨by decide, by decide⟩⟩, rfl, rfl, by omega⟩

/-- C2 amended: lazy initialization establishes the bounds, and `takeOne`
and `promote` preserve them unconditionally; a completed `refill` preserves
them provided the upstream batch holds at most CAPACITY records (the source
requests exactly 30 but applies no cap of its own, so an over-delivering
upstream violates the count bound). -/
theorem tier_bounds_preserved :
    (∀ k s, s.meta = none → metaOk (getOrInitializeMetadata k s).1) ∧
    (∀ m ct s, metaOk m → metaOk (getImageFromCache m ct s).metadata) ∧
    (∀ m s f, metaOk m → metaOk (copyBufferToMain m s f).metadata) ∧
    (∀ m s u f now, metaOk m → upstreamCount u ≤ 30 →
      metaOk (refillBufferCache m s u f now).metadata) := by
  refine ⟨?_, ?_, ?_, ?_⟩
  · intro k s hs
    unfold getOrInitializeMetadata
    simp [hs, freshMetadata, metaOk, tierOk]
  · intro m ct s hm
    unfold getImageFromCache
    by_cases hc : (tierOf m ct).count = 0
    · simpa [hc] using hm
    · simp only [if_neg hc]
      cases hsa : storeArr s ct with
      | none =>
        rcases hm with ⟨hmain, hbuf⟩
        cases ct <;>
          simp_all [metaOk, tierOk, setTier, tierOf]
      | some cacheArray =>
        have hptr := scanLoop_fst_lt cacheArray (tierOf m ct).currentPointer 30
          (tierOf m ct).currentPointer (Or.inr (by omega))
        rcases hm with ⟨hmain, hbuf⟩
        cases hsc : (scanLoop cacheArray (tierOf m ct).currentPointer
            (tierOf m ct).currentPointer 30).2 with
        | none =>
          cases ct <;>
            simp_all [metaOk, tierOk, setTier, tierOf]
        | some foundIndex =>
          cases ct <;>
            simp_all [metaOk, tierOk, setTier, tierOf] <;> omega
  · intro m s f hm
    rcases hm with ⟨hmain, hbuf⟩
    unfold copyBufferToMain
    by_cases hf1 : f = some CopyFailPoint.bufferGet
    · simp_all [metaOk, tierOk]
    · cases hsa : s.bufferArr with
      | none => simp_all [metaOk, tierOk]
      | some bufferArray =>
        by_cases hf2 : f = some CopyFailPoint.mainPut
        · simp_all [metaOk, tierOk]
        · by_cases hf3 : f = some CopyFailPoint.metaPut <;>
            simp_all [metaOk, tierOk]
  · intro m s u f now hm hu
    rcases hm with ⟨hmain, hbuf⟩
    unfold refillBufferCache refillCatch
    by_cases hflag : m.isRefilling
    · simp_all [metaOk, tierOk]
    · cases u with
      | netError => simp_all [metaOk, tierOk]
      | badStatus c => simp_all [metaOk, tierOk]
      | ok imgs =>
        cases imgs with
        | nil => simp_all [metaOk, tierOk, List.isEmpty]
        | cons a as =>
          rcases f with _ | pf
          · simp_all [metaOk, tierOk, List.isEmpty, upstreamCount]
          · cases pf <;>
              simp_all [metaOk, tierOk, List.isEmpty, upstreamCount]

/-- C2 witness: the preservation conjuncts applied to the one-record
fixture: taking from the buffer and a 30-record refill both stay within
bounds. -/
theorem tier_bounds_preserved_witness :
    metaOk exMeta ∧ upstreamCount (UpstreamResult.ok (List.replicate 30 ⟨"z"⟩)) ≤ 30 ∧
    metaOk (getImageFromCache exMeta CacheType.buffer exStore).metadata ∧
    metaOk (refillBufferCache exMeta exStore
      (UpstreamResult.ok (List.replicate 30 ⟨"z"⟩)) none 17).metadata := by
  have hm : metaOk exMeta := ⟨⟨by decide, by decide⟩, ⟨by decide, by decide⟩⟩
  have hu : upstreamCount (UpstreamResult.ok (List.replicate 30 (⟨"z"⟩ : ImageRecord))) ≤ 30 := by
    simp [upstreamCount]
  exact ⟨hm, hu,
    tier_bounds_preserved.2.1 exMeta CacheType.buffer exStore hm,
    tier_bounds_preserved.2.2.2 exMeta exStore _ none 17 hm hu⟩

/-! ### C1 — main empty, buffer non-empty: serve directly from buffer -/

/-- C1: when the stored partition has an empty main tier, a non-empty
buffer tier, the bypass-cache flag is false, and the buffer take yields a
record, the orchestrator serves that record straight from the buffer tier,
leaves the main array untouched in the synchronous part (no promotion
before responding), and schedules as background work the metadata persist
followed by the buffer→main promotion followed by a fresh buffer refill. -/
theorem buffer_direct_serve (params : Params) (s : Store) (m : Metadata)
    (u : Except Unit ImageRecord) (r : ImageRecord)
    (hmeta : s.meta = some m)
    (hmain : m.mainCache.count = 0)
    (hbuf : 0 < m.bufferCache.count)
    (hbypass : params.noCache = false)
    (htake : (getImageFromCache m CacheType.buffer s).imageData = some r) :
    handleRandomRequest params s u =
      Except.ok
        { source := ServeSource.fromBuffer
        , image := r
        , metadata := (getImageFromCache m CacheType.buffer s).metadata
        , store := (getImageFromCache m CacheType.buffer s).store
        , background :=
            (if params.download then [BgOp.track r.id] else [])
            ++ [BgOp.updateMeta, BgOp.copyToMain, BgOp.refillBuf] } ∧
    (getImageFromCache m CacheType.buffer s).store.mainArr = s.mainArr := by
  have hchanged := getImageFromCache_changed_of_some m CacheType.buffer s r htake
  have hinit : getOrInitializeMetadata (generateCacheKey (keyInputOf params)) s = (m, s) := by
    unfold getOrInitializeMetadata
    rw [hmeta]
  constructor
  · simp only [handleRandomRequest, hinit]
    rw [if_neg (by simp [hmain])]
    simp only [handlerPattern2]
    rw [if_pos ⟨hmain, hbuf, hbypass⟩]
    simp only [htake, hchanged, if_pos]
    rw [List.append_assoc]
    rfl
  · exact (getImageFromCache_other_tier m CacheType.buffer s).2

/-- C1 witness: a concrete partition with main count 0 and buffer count 1
is served the buffered record from the buffer path and schedules persist,
promotion and refill in that order. -/
theorem buffer_direct_serve_witness :
    exStore.meta = some exMeta ∧
    exMeta.mainCache.count = 0 ∧
    0 < exMeta.bufferCache.count ∧
    (⟨"landscape", none, false, false, false⟩ : Params).noCache = false ∧
    (getImageFromCache exMeta CacheType.buffer exStore).imageData = some ⟨"img-1"⟩ ∧
    (handleRandomRequest ⟨"landscape", none, false, false, false⟩ exStore (Except.error ()) =
      Except.ok
        { source := ServeSource.fromBuffer
        , image := ⟨"img-1"⟩
        , metadata := (getImageFromCache exMeta CacheType.buffer exStore).metadata
        , store := (getImageFromCache exMeta CacheType.buffer exStore).store
        , background :=
            (if (⟨"landscape", none, false, false, false⟩ : Params).download
             then [BgOp.track (⟨"img-1"⟩ : ImageRecord).id] else [])
            ++ [BgOp.updateMeta, BgOp.copyToMain, BgOp.refillBuf] } ∧
      (getImageFromCache exMeta CacheType.buffer exStore).store.mainArr = exStore.mainArr) :=
  ⟨rfl, rfl, by decide, rfl, by decide,
    buffer_direct_serve ⟨"landscape", none, false, false, false⟩ exStore exMeta
      (Except.error ()) ⟨"img-1"⟩ rfl rfl (by decide) rfl (by decide)⟩

/-! ### C9 — cache-key builder -/

theorem append_orientation_ne_default (pre v : String) :
    pre ++ ("orientation=" ++ v) ≠ "default" := by
  intro h
  have hlen := congrArg String.length h
  rw [String.length_append, String.length_append] at hlen
  have h12 : ("orientation=" : String).length = 12 := rfl
  have h7 : ("default" : String).length = 7 := rfl
  omega

theorem validateOrientation_valid (o : Option String) :
    validateOrientation o = "landscape" ∨ validateOrientation o = "portrait" ∨
      validateOrientation o = "squarish" := by
  cases o with
  | none => exact Or.inl rfl
  | some str =>
    by_cases h : str = "landscape" ∨ str = "portrait" ∨ str = "squarish"
    · have hv : validateOrientation (some str) = str := if_pos h
      rw [hv]
      exact h
    · have hv : validateOrientation (some str) = "landscape" := if_neg h
      rw [hv]
      exact Or.inl rfl

/-- The key produced from any input whose orientation field holds a
non-skipped value ends in the `orientation=` component, since `orientation`
sorts last among the three relevant fields. -/
theorem generateCacheKey_ends_orientation (oc : Option String) (b : Bool) (v : String)
    (h1 : v ≠ "") (h2 : v ≠ "none") (h3 : v ≠ "default") :
    ∃ pre : String, generateCacheKey ⟨some v, oc, b⟩ = pre ++ ("orientation=" ++ v) := by
  have e1 : jsOrStr (some v) "default" = v := if_neg h1
  have hov : ¬(v = "none" ∨ v = "default") := by simp [h2, h3]
  by_cases hcv : jsOrStr oc "none" = "none" ∨ jsOrStr oc "none" = "default"
  · cases b with
    | false =>
      refine ⟨"", ?_⟩
      simp only [generateCacheKey, e1]
      rw [if_pos hcv, if_neg hov]
      rfl
    | true =>
      refine ⟨"addPhotoOfTheDay=true" ++ "_", ?_⟩
      simp only [generateCacheKey, e1]
      rw [if_pos hcv, if_neg hov]
      rfl
  · cases b with
    | false =>
      refine ⟨("collectionIds=" ++ jsOrStr oc "none") ++ "_", ?_⟩
      simp only [generateCacheKey, e1]
      rw [if_neg hcv, if_neg hov]
      rfl
    | true =>
      refine ⟨("addPhotoOfTheDay=true" ++ "_" ++ ("collectionIds=" ++ jsOrStr oc "none")) ++ "_", ?_⟩
      simp only [generateCacheKey, e1]
      rw [if_neg hcv, if_neg hov]
      rfl

/-- C10: every request that passes through the handler's parameter parsing
yields a cache key that ends in an `orientation=<validated value>`
component and is never the literal `"default"`: `validateOrientation` maps
every raw value to one of the three valid orientations, so the `"default"`
fallback of `generateCacheKey` is unreachable from the request path. -/
theorem request_key_has_orientation (q : RawQuery) :
    (∃ pre : String,
      generateCacheKey (keyInputOf (parseParams q)) =
        pre ++ ("orientation=" ++ validateOrientation q.orientation)) ∧
    generateCacheKey (keyInputOf (parseParams q)) ≠ "default" := by
  have hval := validateOrientation_valid q.orientation
  have hne : validateOrientation q.orientation ≠ "" ∧
      validateOrientation q.orientation ≠ "none" ∧
      validateOrientation q.orientation ≠ "default" := by
    rcases hval with h | h | h <;> rw [h] <;> exact ⟨by decide, by decide, by decide⟩
  obtain ⟨hne1, hne2, hne3⟩ := hne
  have hinput : keyInputOf (parseParams q) =
      ⟨some (validateOrientation q.orientation), sanitizeCollectionIds q.collections,
        decide (q.addPhotoOfTheDay = some "true")⟩ := rfl
  rw [hinput]
  have hkey := generateCacheKey_ends_orientation (sanitizeCollectionIds q.collections)
    (decide (q.addPhotoOfTheDay = some "true")) (validateOrientation q.orientation)
    hne1 hne2 hne3
  refine ⟨hkey, ?_⟩
  obtain ⟨pre, hpre⟩ := hkey
  rw [hpre]
  exact append_orientation_ne_default pre (validateOrientation q.orientation)

end UnsplashWorkers
